import Mathlib

/-!
Verification development for the miniupdate repository.

The Python sources are shallowly embedded: the pure parsing helpers of
`miniupdate/package_managers.py` become Lean functions over `List Char`
(Python strings are processed per code point, so `List Char` is the faithful
carrier and keeps every definition kernel-computable); the effectful
orchestrator `miniupdate/update_automator.py` becomes a function from an
environment that records the outcome of every external interaction (SSH, the
package commands, the Proxmox API, the prober) to the produced
`AutomatedUpdateReport` together with an explicit trace of the side effects
the pass performed.  Wall-clock values (`datetime.now()` at the start of the
pass and at cleanup time) enter through the environment as well.
-/

/-! ## Python string primitives

Each helper mirrors the behaviour of the CPython `str` method named in its
doc comment, restricted to the ASCII texts the program manipulates
(`Char.isWhitespace` covers the whitespace characters that occur in package
manager output). -/

/-- Python `str.split('\n')`: cut at every newline, keeping empty pieces. -/
def splitLinesAux (cur : List Char) : List Char → List (List Char)
  | [] => [cur.reverse]
  | c :: rest =>
    if c = '\n' then cur.reverse :: splitLinesAux [] rest
    else splitLinesAux (c :: cur) rest

/-- Python `s.split('\n')` on the code points of `s`. -/
def pySplitLines (cs : List Char) : List (List Char) := splitLinesAux [] cs

/-- Python `str.strip()`: remove leading and trailing whitespace. -/
def pyStrip (cs : List Char) : List Char :=
  ((cs.dropWhile Char.isWhitespace).reverse.dropWhile Char.isWhitespace).reverse

/-- Helper for `pyFields`, accumulating the current word. -/
def pyFieldsAux (cur : List Char) : List Char → List (List Char)
  | [] => if cur.isEmpty then [] else [cur.reverse]
  | c :: rest =>
    if c.isWhitespace then
      if cur.isEmpty then pyFieldsAux [] rest else cur.reverse :: pyFieldsAux [] rest
    else pyFieldsAux (c :: cur) rest

/-- Python `str.split()` with no argument: whitespace-separated fields,
empty fields discarded. -/
def pyFields (cs : List Char) : List (List Char) := pyFieldsAux [] cs

/-- Python `sub in s` (substring containment). -/
def listInfix (sub : List Char) : List Char → Bool
  | [] => sub.isEmpty
  | c :: rest => sub.isPrefixOf (c :: rest) || listInfix sub rest

/-- Python `s.split('->')`, used by the pacman parser. -/
def splitArrowAux (cur : List Char) : List Char → List (List Char)
  | [] => [cur.reverse]
  | '-' :: '>' :: rest => cur.reverse :: splitArrowAux [] rest
  | c :: rest => splitArrowAux (c :: cur) rest

/-- Python `line.split('->')` on code points. -/
def pySplitArrow (cs : List Char) : List (List Char) := splitArrowAux [] cs

/-! ## Data model (`package_managers.py`, `email_sender.py`, `update_automator.py`) -/

/-- Structure `PackageUpdate` from `package_managers.py`. -/
structure PackageUpdate where
  name : String
  current_version : String
  available_version : String
  repository : String := ""
  security : Bool := false
  description : String := ""
deriving DecidableEq, Repr

/-- The fragment of `OSInfo` (`os_detector.py`) the orchestrator consults. -/
structure OSInfo where
  distribution : String
  package_manager : String
deriving DecidableEq, Repr

/-- Structure `UpdateReport` from `email_sender.py`; the `host` argument of the Python
constructor is carried by the enclosing `AutomatedUpdateReport`, and the
wall-clock `timestamp` is not modelled.  `command_output` documents itself in
the source as the place to "Store stdout/stderr from failed commands". -/
structure UpdateReport where
  os_info : Option OSInfo
  updates : List PackageUpdate
  error : Option String := none
  command_output : Option String := none
deriving DecidableEq, Repr

/-- Enum `UpdateResult` from `update_automator.py`. -/
inductive UpdateResult where
  | SUCCESS
  | OPT_OUT
  | NO_UPDATES
  | FAILED_SNAPSHOT
  | FAILED_UPDATES
  | FAILED_REBOOT
  | FAILED_AVAILABILITY
  | REVERTED
  | REVERT_FAILED
deriving DecidableEq, Repr

/-! ## TOML values and the VM registry loader (`vm_mapping.py`) -/

/-- The TOML scalar values relevant to `vm_mapping.py` (tables, arrays,
floats and datetimes are not modelled; the loader's claims concern the
integer/string/boolean cases). -/
inductive TomlVal where
  | vInt (n : Int)
  | vStr (s : String)
  | vBool (b : Bool)
deriving DecidableEq, Repr

/-- Python truthiness of a TOML scalar (`if not node`, `if not vmid`). -/
def TomlVal.truthy : TomlVal → Bool
  | .vInt n => n != 0
  | .vStr s => s != ""
  | .vBool b => b

/-- Python truthiness of `dict.get(...)`: `None` is falsy. -/
def truthyOpt : Option TomlVal → Bool
  | none => false
  | some v => v.truthy

/-- Python `int(s)` on a string: strip whitespace, optional sign, decimal
digits; `none` models `ValueError`.  (Underscore separators and non-ASCII
digits are not modelled.) -/
def pyIntOfString (s : String) : Option Int :=
  let t := pyStrip s.toList
  let signDigits : Int × List Char :=
    match t with
    | '+' :: rest => (1, rest)
    | '-' :: rest => (-1, rest)
    | l => (1, l)
  if signDigits.2.isEmpty || !(signDigits.2.all Char.isDigit) then none
  else
    some (signDigits.1 *
      (signDigits.2.foldl (fun acc c => acc * 10 + (c.toNat - '0'.toNat)) 0 : Nat))

/-- Python `int(v)` on a TOML scalar; `none` models `ValueError`
(`bool` is an `int` subclass in Python, hence converts). -/
def pyIntOfVal : TomlVal → Option Int
  | .vInt n => some n
  | .vStr s => pyIntOfString s
  | .vBool b => some (if b then 1 else 0)

/-- Structure `VMMapping` from `vm_mapping.py`.  The NamedTuple is dynamically typed:
the loader stores whatever TOML value the file held for `node`, `endpoint`,
`username` and `password`, so those fields carry `TomlVal`. -/
structure VMMapping where
  node : TomlVal
  vmid : Int
  host_name : String
  max_snapshots : Option Int := none
  endpoint : Option TomlVal := none
  username : Option TomlVal := none
  password : Option TomlVal := none
deriving DecidableEq, Repr

/-- One value of the `vms` table: either not a dict (skipped with a warning)
or a dict with the recognised optional keys. -/
structure VMInfoDict where
  node : Option TomlVal := none
  vmid : Option TomlVal := none
  max_snapshots : Option TomlVal := none
  endpoint : Option TomlVal := none
  username : Option TomlVal := none
  password : Option TomlVal := none
deriving DecidableEq, Repr

/-- An entry of the `vms` table as seen by `VMMapper._load_mappings`. -/
inductive VMEntryVal where
  | notDict
  | dict (d : VMInfoDict)
deriving DecidableEq, Repr

/-- The `max_snapshots` validation of `_load_mappings`: present values that
fail `int()` or are negative are replaced by `None` with a warning. -/
def loadMaxSnapshots : Option TomlVal → Option Int
  | none => none
  | some v =>
    match pyIntOfVal v with
    | none => none
    | some m => if m < 0 then none else some m

/-- The per-entry body of `VMMapper._load_mappings`: `none` means the entry
is logged and skipped. -/
def loadEntry (host_name : String) : VMEntryVal → Option VMMapping
  | .notDict => none
  | .dict d =>
    if !(truthyOpt d.node) || !(truthyOpt d.vmid) then none
    else
      match d.node, d.vmid with
      | some nodeV, some vmidV =>
        match pyIntOfVal vmidV with
        | none => none
        | some vmidInt =>
          some { node := nodeV, vmid := vmidInt, host_name := host_name,
                 max_snapshots := loadMaxSnapshots d.max_snapshots,
                 endpoint := d.endpoint, username := d.username,
                 password := d.password }
      | _, _ => none

/-- Loader `VMMapper._load_mappings`: fold the `vms` table, skipping invalid
entries.  (TOML forbids duplicate keys, so a list of pairs is faithful.) -/
def load_mappings : List (String × VMEntryVal) → List (String × VMMapping)
  | [] => []
  | (h, e) :: rest =>
    match loadEntry h e with
    | some m => (h, m) :: load_mappings rest
    | none => load_mappings rest

/-! ## Package adapters (`package_managers.py`) -/

/-- Python `package_arch.rsplit('.', 1)[0]` when a dot is present, else the
input unchanged (`YumPackageManager._parse_yum_output`). -/
def strip_arch (cs : List Char) : List Char :=
  if cs.contains '.' then ((cs.reverse.dropWhile (fun c => c ≠ '.')).drop 1).reverse
  else cs

/-- One line of `YumPackageManager._parse_yum_output`: strip, skip empty and
header lines, and turn a line with at least three whitespace-separated
fields into a `PackageUpdate`. -/
def parse_yum_line (line0 : List Char) : Option PackageUpdate :=
  let line := pyStrip line0
  if line.isEmpty || ("Loaded plugins".toList.isPrefixOf line)
      || ("Loading mirror".toList.isPrefixOf line) then none
  else
    match pyFields line with
    | pkgArch :: avail :: repo :: _ =>
      some { name := String.mk (strip_arch pkgArch), current_version := "installed",
             available_version := String.mk avail, repository := String.mk repo }
    | _ => none

/-- Parser `YumPackageManager._parse_yum_output` (also reused verbatim by
`DnfPackageManager._parse_dnf_output`). -/
def parse_yum_output (output : List Char) : List PackageUpdate :=
  (pySplitLines (pyStrip output)).filterMap parse_yum_line

/-- The package names extracted by `YumPackageManager._mark_security_updates`
from the output of `yum --security check-update --quiet`. -/
def yum_security_names (exit_code : Int) (stdout : List Char) : List String :=
  if exit_code = 100 then
    (pySplitLines (pyStrip stdout)).filterMap (fun l =>
      match pyFields (pyStrip l) with
      | pkgArch :: _ => some (String.mk (strip_arch pkgArch))
      | [] => none)
  else []

/-- The marking loop of `_mark_security_updates`: flag updates whose name is
in the security set. -/
def yum_mark_security (names : List String) (updates : List PackageUpdate) :
    List PackageUpdate :=
  updates.map fun u => if names.contains u.name then { u with security := true } else u

/-- Outcome of the two remote commands `YumPackageManager.check_updates`
runs: `yum check-update --quiet` and (on exit 100)
`yum --security check-update --quiet`. -/
structure YumCheckEnv where
  check_exit : Int
  check_stdout : List Char
  security_exit : Int
  security_stdout : List Char

/-- Operation `YumPackageManager.check_updates`: exit codes other than 0 and 100 are
errors and yield no updates; 0 yields none; 100 parses the output and then
applies best-effort security marking. -/
def yum_check_updates (e : YumCheckEnv) : List PackageUpdate :=
  if ¬(e.check_exit = 0 ∨ e.check_exit = 100) then []
  else if e.check_exit = 100 then
    yum_mark_security (yum_security_names e.security_exit e.security_stdout)
      (parse_yum_output e.check_stdout)
  else []

/-- The optional tail of the apt regex,
`(?:\s+\[upgradable from:\s+([^\]]+)\])?`: whitespace, the literal
`[upgradable from:`, whitespace, a nonempty bracket-free group, `]`. -/
def aptUpgradableFrom (cs : List Char) : Option String :=
  let w := cs.takeWhile Char.isWhitespace
  if w.isEmpty then none
  else
    let r := cs.drop w.length
    if "[upgradable from:".toList.isPrefixOf r then
      let r2 := r.drop 17
      let w2 := r2.takeWhile Char.isWhitespace
      if w2.isEmpty then none
      else
        let r3 := r2.drop w2.length
        let g5 := r3.takeWhile (fun c => c ≠ ']')
        if g5.isEmpty then none
        else
          match r3.drop g5.length with
          | ']' :: _ => some (String.mk g5)
          | _ => none
    else none

/-- Parser `AptPackageManager._parse_apt_line`: the anchored regex
`^([^/]+)/([^\s]+)\s+([^\s]+)\s+([^\s]+)(?:\s+\[upgradable from:\s+([^\]]+)\])?`
unfolded into its (deterministic) greedy reading; group 5 missing means
`current_version = "unknown"`. -/
def parse_apt_line (line : String) : Option PackageUpdate :=
  let cs := line.toList
  let g1 := cs.takeWhile (fun c => c ≠ '/')
  match cs.drop g1.length with
  | '/' :: r1 =>
    if g1.isEmpty then none
    else
      let g2 := r1.takeWhile (fun c => !c.isWhitespace)
      if g2.isEmpty then none
      else
        let r2 := r1.drop g2.length
        let w1 := r2.takeWhile Char.isWhitespace
        if w1.isEmpty then none
        else
          let r3 := r2.drop w1.length
          let g3 := r3.takeWhile (fun c => !c.isWhitespace)
          if g3.isEmpty then none
          else
            let r4 := r3.drop g3.length
            let w2 := r4.takeWhile Char.isWhitespace
            if w2.isEmpty then none
            else
              let r5 := r4.drop w2.length
              let g4 := r5.takeWhile (fun c => !c.isWhitespace)
              if g4.isEmpty then none
              else
                let r6 := r5.drop g4.length
                let current :=
                  match aptUpgradableFrom r6 with
                  | some old => old
                  | none => "unknown"
                some { name := String.mk g1, current_version := current,
                       available_version := String.mk g3, repository := String.mk g2 }
  | _ => none

/-- The parsing loop of `AptPackageManager.check_updates`: skip blank lines
and the `Listing...` banner, parse the rest, drop non-matching lines. -/
def parse_apt_output (stdout : List Char) : List PackageUpdate :=
  (pySplitLines (pyStrip stdout)).filterMap (fun line =>
    if (pyStrip line).isEmpty || listInfix "Listing...".toList line then none
    else parse_apt_line (String.mk line))

/-- One line of `PackmanPackageManager._parse_pacman_output`: lines
containing `->` split into exactly two parts become updates; the left part's
whitespace fields give name and current version. -/
def parse_pacman_line (line : List Char) : Option PackageUpdate :=
  if listInfix "->".toList line then
    match pySplitArrow line with
    | [l, r] =>
      let left := pyStrip l
      let avail := String.mk (pyStrip r)
      match pyFields left with
      | nameF :: curF :: _ =>
        some { name := String.mk nameF, current_version := String.mk curF,
               available_version := avail }
      | _ =>
        some { name := String.mk left, current_version := "unknown",
               available_version := avail }
    | _ => none
  else none

/-- Parser `PackmanPackageManager._parse_pacman_output`. -/
def parse_pacman_output (output : List Char) : List PackageUpdate :=
  (pySplitLines (pyStrip output)).filterMap parse_pacman_line

/-! ## Calendar arithmetic (CPython `datetime`) -/

/-- Gregorian leap year rule, as in CPython `datetime`. -/
def isLeapYear (y : Nat) : Bool := (y % 4 == 0 && y % 100 != 0) || y % 400 == 0

/-- Length of a month. -/
def daysInMonth (y m : Nat) : Nat :=
  if m = 2 then (if isLeapYear y then 29 else 28)
  else if m = 4 ∨ m = 6 ∨ m = 9 ∨ m = 11 then 30
  else 31

/-- Days in the months strictly before month `m` of year `y`. -/
def daysBeforeMonth (y m : Nat) : Nat :=
  (List.range (m - 1)).foldl (fun acc i => acc + daysInMonth y (i + 1)) 0

/-- Days strictly before January 1 of year `y` in the proleptic Gregorian
calendar (CPython `datetime.toordinal` counts from year 1). -/
def daysBeforeYear (y : Nat) : Nat :=
  365 * (y - 1) + (y - 1) / 4 - (y - 1) / 100 + (y - 1) / 400

/-- A naive `datetime.datetime` value. -/
structure PyDateTime where
  year : Nat
  month : Nat
  day : Nat
  hour : Nat
  minute : Nat
  second : Nat
deriving DecidableEq, Repr

/-- Seconds since the proleptic-Gregorian epoch; on valid datetimes this
ordering agrees with CPython `datetime` comparison, and subtracting
`timedelta(days = d)` subtracts `86400 * d` from it. -/
def PyDateTime.toSeconds (t : PyDateTime) : Int :=
  ((daysBeforeYear t.year + daysBeforeMonth t.year t.month + (t.day - 1)) * 86400
    + t.hour * 3600 + t.minute * 60 + t.second : Nat)

/-- Numeric value of a decimal digit character. -/
def digitVal (c : Char) : Nat := c.toNat - '0'.toNat

/-- Numeric value of two decimal digit characters. -/
def twoDigitsVal (c1 c2 : Char) : Nat := digitVal c1 * 10 + digitVal c2

/-- Matches of CPython `_strptime`'s `%m` pattern `1[0-2]|0[1-9]|[1-9]` at
the start of the input, as (value, remainder) pairs in the alternation's
order (the regex engine tries and backtracks through alternatives in this
order). -/
def monthCands : List Char → List (Nat × List Char)
  | c1 :: c2 :: rest =>
    (if c1 = '1' ∧ (c2 = '0' ∨ c2 = '1' ∨ c2 = '2') then [(twoDigitsVal c1 c2, rest)] else [])
    ++ (if c1 = '0' ∧ ('1' ≤ c2 ∧ c2 ≤ '9') then [(digitVal c2, rest)] else [])
    ++ (if '1' ≤ c1 ∧ c1 ≤ '9' then [(digitVal c1, c2 :: rest)] else [])
  | [c1] => if '1' ≤ c1 ∧ c1 ≤ '9' then [(digitVal c1, [])] else []
  | [] => []

/-- Matches of the `%d` pattern `3[01]|[12]\d|0[1-9]|[1-9]`, in the
alternation's order. -/
def dayCands : List Char → List (Nat × List Char)
  | c1 :: c2 :: rest =>
    (if c1 = '3' ∧ (c2 = '0' ∨ c2 = '1') then [(twoDigitsVal c1 c2, rest)] else [])
    ++ (if (c1 = '1' ∨ c1 = '2') ∧ c2.isDigit then [(twoDigitsVal c1 c2, rest)] else [])
    ++ (if c1 = '0' ∧ ('1' ≤ c2 ∧ c2 ≤ '9') then [(digitVal c2, rest)] else [])
    ++ (if '1' ≤ c1 ∧ c1 ≤ '9' then [(digitVal c1, c2 :: rest)] else [])
  | [c1] => if '1' ≤ c1 ∧ c1 ≤ '9' then [(digitVal c1, [])] else []
  | [] => []

/-- Matches of the `%H` pattern `2[0-3]|[0-1]\d|\d`, in the alternation's
order. -/
def hourCands : List Char → List (Nat × List Char)
  | c1 :: c2 :: rest =>
    (if c1 = '2' ∧ ('0' ≤ c2 ∧ c2 ≤ '3') then [(twoDigitsVal c1 c2, rest)] else [])
    ++ (if (c1 = '0' ∨ c1 = '1') ∧ c2.isDigit then [(twoDigitsVal c1 c2, rest)] else [])
    ++ (if c1.isDigit then [(digitVal c1, c2 :: rest)] else [])
  | [c1] => if c1.isDigit then [(digitVal c1, [])] else []
  | [] => []

/-- Matches of the `%M` pattern `[0-5]\d|\d`, in the alternation's order. -/
def minuteCands : List Char → List (Nat × List Char)
  | c1 :: c2 :: rest =>
    (if ('0' ≤ c1 ∧ c1 ≤ '5') ∧ c2.isDigit then [(twoDigitsVal c1 c2, rest)] else [])
    ++ (if c1.isDigit then [(digitVal c1, c2 :: rest)] else [])
  | [c1] => if c1.isDigit then [(digitVal c1, [])] else []
  | [] => []

/-- Matches of the `%S` pattern `6[0-1]|[0-5]\d|\d` (leap seconds included),
in the alternation's order. -/
def secondCands : List Char → List (Nat × List Char)
  | c1 :: c2 :: rest =>
    (if c1 = '6' ∧ (c2 = '0' ∨ c2 = '1') then [(twoDigitsVal c1 c2, rest)] else [])
    ++ (if ('0' ≤ c1 ∧ c1 ≤ '5') ∧ c2.isDigit then [(twoDigitsVal c1 c2, rest)] else [])
    ++ (if c1.isDigit then [(digitVal c1, c2 :: rest)] else [])
  | [c1] => if c1.isDigit then [(digitVal c1, [])] else []
  | [] => []

/-- Match of the `%Y` pattern `\d\d\d\d`: exactly four digits, no
alternatives. -/
def yearMatch : List Char → Option (Nat × List Char)
  | c1 :: c2 :: c3 :: c4 :: rest =>
    if c1.isDigit ∧ c2.isDigit ∧ c3.isDigit ∧ c4.isDigit then
      some (digitVal c1 * 1000 + digitVal c2 * 100 + digitVal c3 * 10 + digitVal c4, rest)
    else none
  | _ => none

/-- The anchored match of CPython `_strptime`'s compiled regex for the
format `'%Y%m%d-%H%M%S'`: the first assignment of all six fields (with the
literal dash) found in the engine's backtracking order, together with the
unconsumed remainder.  A later field with no match makes the engine try the
earlier fields' next alternatives, exactly as `List.findSome?` does here;
once `%S` matches, the whole regex has matched and the end position is
fixed. -/
def strptimeMatch (cs : List Char) : Option (PyDateTime × List Char) :=
  match yearMatch cs with
  | none => none
  | some (y, r1) =>
    (monthCands r1).findSome? fun mc =>
      (dayCands mc.2).findSome? fun dc =>
        match dc.2 with
        | '-' :: r2 =>
          (hourCands r2).findSome? fun hc =>
            (minuteCands hc.2).findSome? fun nc =>
              (secondCands nc.2).findSome? fun sc =>
                some (⟨y, mc.1, dc.1, hc.1, nc.1, sc.1⟩, sc.2)
        | _ => none

/-- CPython `datetime.strptime(s, '%Y%m%d-%H%M%S')` (restricted to ASCII
digits): match the `_strptime` regex at the start of the string; a failed
match or unconverted trailing data raises `ValueError`, and the
`datetime(...)` constructor then validates year at least 1, day within the
month, and second at most 59 (the regex already bounds month, day, hour and
minute; seconds 60-61 match the regex but fail construction).  Non-padded
fields such as `'202611-121212'` (2026-01-01 12:12:12) parse, as they do in
CPython.  `none` models `ValueError`. -/
def parse_snapshot_timestamp (s : String) : Option PyDateTime :=
  match strptimeMatch s.toList with
  | none => none
  | some (t, rest) =>
    if rest.isEmpty then
      if 1 ≤ t.year ∧ 1 ≤ t.month ∧ t.month ≤ 12 ∧ 1 ≤ t.day
          ∧ t.day ≤ daysInMonth t.year t.month
          ∧ t.hour ≤ 23 ∧ t.minute ≤ 59 ∧ t.second ≤ 59 then
        some t
      else none
    else none

/-! ## Orchestrator (`update_automator.py`) -/

/-- The `updates` section of the configuration as read by the orchestrator,
with the defaults the source passes to `dict.get`; `snapshotNamePre` is the
`snapshot_name_prefix` key. -/
structure UpdateConfig where
  apply_updates : Bool := false
  reboot_after_updates : Bool := false
  cleanup_snapshots : Bool := false
  snapshotNamePre : String := "pre-update"
  snapshot_retention_days : Nat := 7
  ping_timeout : Nat := 120
  opt_out_hosts : List String := []

/-- Outcome of the remote commands a bound package adapter would run during
the pass: the cache refresh per attempt number, the parsed update list, and
the apply command's refresh outcome, exit code and captured output.  Every
adapter's `apply_updates` has the same shape: refresh the cache, run the
upgrade command, return `exit == 0`, logging but not returning the output. -/
structure AdapterEnv where
  refresh_results : Nat → Bool
  check_updates_result : List PackageUpdate
  apply_refresh_ok : Bool
  apply_exit : Int
  apply_stdout : String
  apply_stderr : String

/-- The boolean every adapter's `apply_updates` returns (e.g.
`AptPackageManager.apply_updates`): refresh the cache first, then succeed
iff the upgrade command exits 0.  The command's stdout/stderr are logged and
discarded. -/
def adapter_apply_updates (e : AdapterEnv) : Bool :=
  e.apply_refresh_ok && (e.apply_exit == 0)

/-- External-world outcomes of one host pass of
`UpdateAutomator.process_host_automated_update`. -/
structure PassEnv where
  host : String
  vm_mapping : Option VMMapping
  ssh_ok : Bool
  os_info : Option OSInfo
  pm_supported : Bool
  adapter : AdapterEnv
  snapshot_create_ok : Bool
  reboot_dispatch_ok : Bool
  host_available : Bool
  revert_ok : Bool
  proxmox_configured : Bool
  now : PyDateTime
  snapshots : List String
  start_timestamp : String

/-- Structure `AutomatedUpdateReport` from `update_automator.py` (the wall-clock
`start_time`/`end_time` fields are not modelled). -/
structure AutomatedUpdateReport where
  host : String
  vm_mapping : Option VMMapping
  update_report : UpdateReport
  result : UpdateResult
  snapshot_name : Option String
  error_details : Option String
deriving DecidableEq, Repr

/-- Side effects a pass performed, needed to state the claims: whether
`apply_updates` ran, whether a snapshot was attempted/created, whether a
rollback was attempted, how many cache-refresh attempts ran, the
`time.sleep` durations in order, and the snapshot names deleted by retention
cleanup. -/
structure Trace where
  refresh_attempts : Nat := 0
  apply_invoked : Bool := false
  snapshot_attempted : Bool := false
  snapshot_created : Bool := false
  revert_attempted : Bool := false
  sleeps : List Nat := []
  deletes : List String := []
deriving DecidableEq, Repr

/-- Observable behaviour of the refresh retry loop
(`for attempt in range(1, max_retries + 1)` with `max_retries = 3` and
`time.sleep(5)` after each failed attempt except the last). -/
structure RefreshOutcome where
  success : Bool
  attempts : Nat
  sleeps : List Nat
deriving DecidableEq, Repr

/-- The unrolled refresh loop of `process_host_automated_update`
(`max_retries` is the literal 3 in the source). -/
def refreshLoop (ok : Nat → Bool) : RefreshOutcome :=
  if ok 1 then ⟨true, 1, []⟩
  else if ok 2 then ⟨true, 2, [5]⟩
  else if ok 3 then ⟨true, 3, [5, 5]⟩
  else ⟨false, 3, [5, 5]⟩

/-- The thrice-repeated rollback decision of the source
(`if snapshot_name and self.proxmox_client and vm_mapping: ...`): returns
the result, the error text appended to `base`, and whether a rollback was
attempted.  `snapshot_name` is nonempty whenever set, so `Option` matching
captures Python truthiness. -/
def revertDecision (proxmox_configured : Bool) (vm_mapping : Option VMMapping)
    (revert_ok : Bool) (snapshot_name : Option String) (fallback : UpdateResult)
    (base : String) : UpdateResult × String × Bool :=
  match snapshot_name with
  | some _ =>
    if proxmox_configured && vm_mapping.isSome then
      if revert_ok then (.REVERTED, base ++ " - reverted to snapshot", true)
      else (.REVERT_FAILED, base ++ " - CRITICAL: snapshot revert also failed", true)
    else (fallback, base, false)
  | none => (fallback, base, false)

/-- Loop of `UpdateAutomator._cleanup_old_snapshots`: for each
snapshot name, skip names that do not start with the configured name stem,
strip the stem plus one separator character, parse the remainder as
`YYYYMMDD-HHMMSS` (parse failures are logged and skipped), and delete when
the parsed time is strictly older than the cutoff. -/
def cleanupLoop (stem : String) (cutoffSeconds : Int) : List String → List String
  | [] => []
  | name :: rest =>
    if !(stem.toList.isPrefixOf name.toList) then cleanupLoop stem cutoffSeconds rest
    else
      match parse_snapshot_timestamp (String.mk (name.toList.drop (stem.length + 1))) with
      | none => cleanupLoop stem cutoffSeconds rest
      | some t =>
        if t.toSeconds < cutoffSeconds then name :: cleanupLoop stem cutoffSeconds rest
        else cleanupLoop stem cutoffSeconds rest

/-- Sweep `UpdateAutomator._cleanup_old_snapshots`: the cutoff is
`datetime.now() - timedelta(days = retention)` with the configured retention
(default 7 days). -/
def cleanup_old_snapshots (cfg : UpdateConfig) (now : PyDateTime)
    (snapshots : List String) : List String :=
  cleanupLoop cfg.snapshotNamePre
    (now.toSeconds - (cfg.snapshot_retention_days : Int) * 86400) snapshots

/-- Stage `UpdateAutomator._handle_reboot_and_verification`: dispatch the reboot
(rolling back on dispatch failure), sleep 10 seconds, wait for availability
(rolling back when the host does not return).  Returns the failure report if
any, whether a rollback was attempted, and the sleeps performed. -/
def handle_reboot_and_verification (cfg : UpdateConfig) (env : PassEnv)
    (snapshot_name : Option String) :
    Option AutomatedUpdateReport × Bool × List Nat :=
  if !env.reboot_dispatch_ok then
    let d := revertDecision env.proxmox_configured env.vm_mapping env.revert_ok
      snapshot_name .FAILED_REBOOT "Failed to send reboot command"
    (some { host := env.host, vm_mapping := env.vm_mapping,
            update_report := { os_info := none, updates := [] },
            result := d.1, snapshot_name := snapshot_name,
            error_details := some d.2.1 }, d.2.2, [])
  else if !env.host_available then
    let d := revertDecision env.proxmox_configured env.vm_mapping env.revert_ok
      snapshot_name .FAILED_AVAILABILITY
      ("Host did not become available within " ++ toString cfg.ping_timeout
        ++ " seconds after reboot")
    (some { host := env.host, vm_mapping := env.vm_mapping,
            update_report := { os_info := none, updates := [] },
            result := d.1, snapshot_name := snapshot_name,
            error_details := some d.2.1 }, d.2.2, [10])
  else (none, false, [10])

/-- Pass `UpdateAutomator.process_host_automated_update`: the per-host state
machine, returning the report together with the trace of performed side
effects. -/
def process_host_automated_update (cfg : UpdateConfig) (env : PassEnv) :
    AutomatedUpdateReport × Trace :=
  if !env.ssh_ok then
    ({ host := env.host, vm_mapping := env.vm_mapping,
       update_report := { os_info := none, updates := [],
                          error := some "Failed to connect via SSH" },
       result := .FAILED_UPDATES, snapshot_name := none,
       error_details := some "SSH connection failed" }, {})
  else
    match env.os_info with
    | none =>
      ({ host := env.host, vm_mapping := env.vm_mapping,
         update_report := { os_info := none, updates := [],
                            error := some "Failed to detect OS" },
         result := .FAILED_UPDATES, snapshot_name := none,
         error_details := some "OS detection failed" }, {})
    | some osi =>
      if !env.pm_supported then
        ({ host := env.host, vm_mapping := env.vm_mapping,
           update_report := { os_info := some osi, updates := [],
                              error := some ("Unsupported package manager: "
                                ++ osi.package_manager) },
           result := .FAILED_UPDATES, snapshot_name := none,
           error_details := some ("Unsupported package manager: "
             ++ osi.package_manager) }, {})
      else
        let ref := refreshLoop env.adapter.refresh_results
        if !ref.success then
          ({ host := env.host, vm_mapping := env.vm_mapping,
             update_report := { os_info := some osi, updates := [],
                                error := some ("Failed to refresh package cache on "
                                  ++ env.host ++ " after 3 attempts") },
             result := .FAILED_UPDATES, snapshot_name := none,
             error_details := some ("Failed to refresh package cache on "
               ++ env.host ++ " after 3 attempts") },
           { refresh_attempts := ref.attempts, sleeps := ref.sleeps })
        else
          let updates := env.adapter.check_updates_result
          let update_report : UpdateReport := { os_info := some osi, updates := updates }
          if cfg.opt_out_hosts.contains env.host || !cfg.apply_updates then
            ({ host := env.host, vm_mapping := env.vm_mapping,
               update_report := update_report, result := .OPT_OUT,
               snapshot_name := none, error_details := none },
             { refresh_attempts := ref.attempts, sleeps := ref.sleeps })
          else if updates.isEmpty then
            ({ host := env.host, vm_mapping := env.vm_mapping,
               update_report := update_report, result := .NO_UPDATES,
               snapshot_name := none, error_details := none },
             { refresh_attempts := ref.attempts, sleeps := ref.sleeps })
          else
            let wantSnapshot := env.proxmox_configured && env.vm_mapping.isSome
            if wantSnapshot && !env.snapshot_create_ok then
              ({ host := env.host, vm_mapping := env.vm_mapping,
                 update_report := update_report, result := .FAILED_SNAPSHOT,
                 snapshot_name := none,
                 error_details := some "Failed to create VM snapshot" },
               { refresh_attempts := ref.attempts, sleeps := ref.sleeps,
                 snapshot_attempted := true })
            else
              let snapshot_name : Option String :=
                if wantSnapshot then
                  some (cfg.snapshotNamePre ++ "-" ++ env.start_timestamp)
                else none
              let tr0 : Trace :=
                { refresh_attempts := ref.attempts, sleeps := ref.sleeps,
                  snapshot_attempted := wantSnapshot, snapshot_created := wantSnapshot,
                  apply_invoked := true }
              if !(adapter_apply_updates env.adapter) then
                let d := revertDecision env.proxmox_configured env.vm_mapping
                  env.revert_ok snapshot_name .FAILED_UPDATES
                  "Failed to apply package updates"
                ({ host := env.host, vm_mapping := env.vm_mapping,
                   update_report := update_report, result := d.1,
                   snapshot_name := snapshot_name, error_details := some d.2.1 },
                 { tr0 with revert_attempted := d.2.2 })
              else
                let reboot :=
                  if cfg.reboot_after_updates then
                    handle_reboot_and_verification cfg env snapshot_name
                  else (none, false, [])
                match reboot.1 with
                | some rep =>
                  (rep, { tr0 with revert_attempted := reboot.2.1,
                                   sleeps := tr0.sleeps ++ reboot.2.2 })
                | none =>
                  let deletes :=
                    if snapshot_name.isSome && env.proxmox_configured
                        && env.vm_mapping.isSome && cfg.cleanup_snapshots then
                      cleanup_old_snapshots cfg env.now env.snapshots
                    else []
                  ({ host := env.host, vm_mapping := env.vm_mapping,
                     update_report := update_report, result := .SUCCESS,
                     snapshot_name := snapshot_name, error_details := none },
                   { tr0 with sleeps := tr0.sleeps ++ reboot.2.2,
                              deletes := deletes, revert_attempted := reboot.2.1 })

/-! ## Claim-side characterizations

The `spec...` definitions below follow the wording of the specification and
of the claims, for comparison against the source-derived parsers. -/

/-- The four fields of a `PackageUpdate` the yum claim speaks about
(security marking is a best-effort overlay on top of them). -/
def coreFields (u : PackageUpdate) : String × String × String × String :=
  (u.name, u.current_version, u.available_version, u.repository)

/-- Follows the claim wording for one yum output line: a non-header line
(nonempty after stripping, not a `Loaded plugins`/`Loading mirror` banner)
with at least three whitespace-separated fields, rendered as its field
list. -/
def specYumQualifyLine (l0 : List Char) : Option (List (List Char)) :=
  let l := pyStrip l0
  if l.isEmpty || ("Loaded plugins".toList.isPrefixOf l)
      || ("Loading mirror".toList.isPrefixOf l) then none
  else if 3 ≤ (pyFields l).length then some (pyFields l) else none

/-- The qualifying lines of a yum `check-update` output, per the claim. -/
def specYumQualifiedFields (output : List Char) : List (List (List Char)) :=
  (pySplitLines (pyStrip output)).filterMap specYumQualifyLine

/-- The `PackageUpdate` core the claim promises for a qualifying line: first
field with its trailing `.arch` stripped, `"installed"`, second field, third
field. -/
def specTupleOfFields (fs : List (List Char)) : String × String × String × String :=
  (String.mk (strip_arch (fs.headD [])), "installed",
   String.mk (fs.getD 1 []), String.mk (fs.getD 2 []))

/-- Security marking changes only the `security` flag. -/
theorem yum_mark_security_core (names : List String) (us : List PackageUpdate) :
    (yum_mark_security names us).map coreFields = us.map coreFields := by
  induction us with
  | nil => rfl
  | cons u rest ih =>
    simp only [yum_mark_security, List.map_cons] at ih ⊢
    refine congrArg₂ _ ?_ ih
    split <;> rfl

/-- Per-line agreement between the source parser and the claim-side
qualifier. -/
theorem parse_yum_line_spec (l : List Char) :
    (parse_yum_line l).map coreFields = (specYumQualifyLine l).map specTupleOfFields := by
  simp only [parse_yum_line, specYumQualifyLine]
  split
  · rfl
  · rcases hf : pyFields (pyStrip l) with _ | ⟨a, _ | ⟨b, _ | ⟨c, rest⟩⟩⟩ <;>
      simp [hf, coreFields, specTupleOfFields, List.getD]

/-- Output-level agreement between `parse_yum_output` and the claim-side
qualifying lines. -/
theorem parse_yum_output_spec (out : List Char) :
    (parse_yum_output out).map coreFields
      = (specYumQualifiedFields out).map specTupleOfFields := by
  unfold parse_yum_output specYumQualifiedFields
  rw [List.map_filterMap, List.map_filterMap]
  exact List.filterMap_congr (fun l _ => parse_yum_line_spec l)

/-- C7: the yum adapter's list-updates operation returns an empty collection
when the check command exits 0 and when it exits with any code other than 0
or 100; when it exits 100, each non-header output line with at least three
whitespace-separated fields yields exactly one `PackageUpdate` whose name is
the first field with its trailing `.arch` suffix stripped, whose
available_version is the second field, whose repository is the third field,
and whose current_version is `"installed"`. -/
theorem c7_yum_check_updates (e : YumCheckEnv) :
    (e.check_exit = 0 → yum_check_updates e = [])
    ∧ (e.check_exit ≠ 0 → e.check_exit ≠ 100 → yum_check_updates e = [])
    ∧ (e.check_exit = 100 →
        (yum_check_updates e).map coreFields
          = (specYumQualifiedFields e.check_stdout).map specTupleOfFields) := by
  refine ⟨fun h0 => ?_, fun h0 h100 => ?_, fun h100 => ?_⟩
  · by_cases h : e.check_exit = 100
    · simp [yum_check_updates, h0, h]
    · simp [yum_check_updates, h0, h]
  · simp [yum_check_updates, h0, h100]
  · have hrw : yum_check_updates e
        = yum_mark_security (yum_security_names e.security_exit e.security_stdout)
            (parse_yum_output e.check_stdout) := by
      simp [yum_check_updates, h100]
    rw [hrw, yum_mark_security_core]
    exact parse_yum_output_spec e.check_stdout

/-- The specification's CentOS scenario: `yum check-update --quiet` exits
100 with one update line. -/
def yumEnv100 : YumCheckEnv :=
  { check_exit := 100, check_stdout := "openssl.x86_64 1.0.2k-19 updates".toList,
    security_exit := 0, security_stdout := [] }

/-- A yum check whose command failed with exit code 1. -/
def yumEnvErr : YumCheckEnv :=
  { check_exit := 1, check_stdout := "x".toList,
    security_exit := 0, security_stdout := [] }

/-- Witness for C7 at the specification's CentOS scenario
(`openssl.x86_64 1.0.2k-19 updates`, exit 100) and at an error exit. -/
theorem c7_yum_check_updates_witness :
    (yumEnv100.check_exit = 100
      ∧ (yum_check_updates yumEnv100).map coreFields
          = (specYumQualifiedFields yumEnv100.check_stdout).map specTupleOfFields)
    ∧ (yumEnvErr.check_exit ≠ 0 ∧ yumEnvErr.check_exit ≠ 100
      ∧ yum_check_updates yumEnvErr = []) :=
  ⟨⟨rfl, (c7_yum_check_updates yumEnv100).2.2 rfl⟩,
    ⟨by decide, by decide,
      (c7_yum_check_updates yumEnvErr).2.1 (by decide) (by decide)⟩⟩

/-- C8: the package-list parsers are pure total functions of the command
output: equal inputs give equal outputs, the empty string yields an empty
list, and malformed lines (an apt line without the `/` of the expected
`name/repo ...` pattern, a yum line with fewer than three fields, a pacman
line without `->`) are dropped, never raising. -/
theorem c8_parsers_pure :
    (parse_apt_output [] = [] ∧ parse_yum_output [] = [] ∧ parse_pacman_output [] = [])
    ∧ (∀ s t : List Char, s = t →
        parse_apt_output s = parse_apt_output t
        ∧ parse_yum_output s = parse_yum_output t
        ∧ parse_pacman_output s = parse_pacman_output t)
    ∧ (∀ line : String, '/' ∉ line.toList → parse_apt_line line = none)
    ∧ (∀ l : List Char, (pyFields (pyStrip l)).length < 3 → parse_yum_line l = none)
    ∧ (∀ l : List Char, listInfix "->".toList l = false → parse_pacman_line l = none) := by
  refine ⟨⟨by decide, by decide, by decide⟩, fun s t h => by rw [h]; exact ⟨rfl, rfl, rfl⟩,
    fun line h => ?_, fun l h => ?_, fun l h => ?_⟩
  · have hall : line.toList.takeWhile (fun c => c ≠ '/') = line.toList :=
      List.takeWhile_eq_self_iff.mpr (fun c hc => by
        simp only [ne_eq, decide_eq_true_eq]
        exact fun he => h (he ▸ hc))
    simp only [parse_apt_line, hall, List.drop_length]
  · simp only [parse_yum_line]
    split
    · rfl
    · rcases hf : pyFields (pyStrip l) with _ | ⟨a, _ | ⟨b, _ | ⟨c, rest⟩⟩⟩ <;>
        simp_all <;> omega
  · have h2 : listInfix ['-', '>'] l = false := h
    simp [parse_pacman_line, h2]

/-- Witness for C8: a slashless apt line, a two-field yum line and an
arrowless pacman line are each dropped, and determinism instantiated at a
concrete output. -/
theorem c8_parsers_pure_witness :
    (('/' ∉ "no slash here".toList) ∧ parse_apt_line "no slash here" = none)
    ∧ ((pyFields (pyStrip "alpha beta".toList)).length < 3
        ∧ parse_yum_line "alpha beta".toList = none)
    ∧ (listInfix "->".toList "zlib 1.2 1.3".toList = false
        ∧ parse_pacman_line "zlib 1.2 1.3".toList = none)
    ∧ parse_apt_output "Listing...".toList = parse_apt_output "Listing...".toList :=
  ⟨⟨by decide, c8_parsers_pure.2.2.1 "no slash here" (by decide)⟩,
   ⟨by decide, c8_parsers_pure.2.2.2.1 "alpha beta".toList (by decide)⟩,
   ⟨by decide, c8_parsers_pure.2.2.2.2 "zlib 1.2 1.3".toList (by decide)⟩,
   (c8_parsers_pure.2.1 "Listing...".toList "Listing...".toList rfl).1⟩

/-- Inversion for `loadEntry`: a loaded mapping comes from a dict entry with
truthy `node` and `vmid` whose `vmid` value converted by `int()`. -/
theorem loadEntry_some {hn : String} {e : VMEntryVal} {m : VMMapping}
    (h : loadEntry hn e = some m) :
    ∃ d, e = .dict d ∧ truthyOpt d.node = true ∧ truthyOpt d.vmid = true
      ∧ ∃ v, d.vmid = some v ∧ pyIntOfVal v = some m.vmid ∧ m.host_name = hn := by
  cases e with
  | notDict => simp [loadEntry] at h
  | dict d =>
    refine ⟨d, rfl, ?_⟩
    simp only [loadEntry] at h
    split at h
    · cases h
    · rename_i hguard
      rcases hn1 : d.node with _ | nodeV <;> rcases hv1 : d.vmid with _ | vmidV <;>
        rw [hn1, hv1] at h hguard <;> simp_all
      rcases hc : pyIntOfVal vmidV with _ | n <;> rw [hc] at h
      · cases h
      · cases h
        exact ⟨rfl, rfl⟩

/-- C9 (amended): an entry of the `vms` table is loaded only when its value
is a dict whose `node` and `vmid` are present and truthy and whose `vmid`
survives Python `int()` conversion; entries failing these checks are logged
and skipped.  The conversion result is stored unchecked, so a loaded vmid is
an arbitrary integer — positivity is not guaranteed. -/
theorem c9_load_mappings_amended (vms : List (String × VMEntryVal))
    (hn : String) (m : VMMapping) (h : (hn, m) ∈ load_mappings vms) :
    ∃ d, (hn, VMEntryVal.dict d) ∈ vms ∧ truthyOpt d.node = true
      ∧ truthyOpt d.vmid = true
      ∧ ∃ v, d.vmid = some v ∧ pyIntOfVal v = some m.vmid ∧ m.host_name = hn := by
  induction vms with
  | nil => cases h
  | cons p rest ih =>
    rcases p with ⟨hn0, e0⟩
    simp only [load_mappings] at h
    rcases he : loadEntry hn0 e0 with _ | m0 <;> rw [he] at h
    · rcases ih h with ⟨d, hd, hrest⟩
      exact ⟨d, List.mem_cons_of_mem _ hd, hrest⟩
    · rcases List.mem_cons.mp h with heq | hmem
      · rcases heq with ⟨rfl, rfl⟩
        rcases loadEntry_some he with ⟨d, rfl, hdn, hdv, v, hv, hconv, hhn⟩
        exact ⟨d, List.mem_cons_self _ _, hdn, hdv, v, hv, hconv, hhn⟩
      · rcases ih hmem with ⟨d, hd, hrest⟩
        exact ⟨d, List.mem_cons_of_mem _ hd, hrest⟩

/-- The registry entry refuting the stated C9: a dict with a truthy string
node and the integer vmid -5. -/
def badVmsTable : List (String × VMEntryVal) :=
  [("h1", .dict { node := some (.vStr "n1"), vmid := some (.vInt (-5)) })]

/-- Counterexample to C9 as stated: the entry with `vmid = -5` passes every
check of `_load_mappings` (truthiness rejects only zero, and `int()`
succeeds on any integer), so the loaded registry contains a mapping whose
vmid is not positive. -/
theorem c9_load_mappings_counterexample :
    load_mappings badVmsTable
      = [("h1", { node := .vStr "n1", vmid := -5, host_name := "h1" })]
    ∧ ¬ (0 < (-5 : Int)) := by
  constructor
  · decide
  · decide

/-- Witness for the amended C9 at a well-formed table with a positive vmid. -/
def goodVmsTable : List (String × VMEntryVal) :=
  [("web1", .dict { node := some (.vStr "pve-node1"), vmid := some (.vInt 100) })]

/-- The mapping the loader produces for `goodVmsTable`. -/
def goodMapping : VMMapping :=
  { node := .vStr "pve-node1", vmid := 100, host_name := "web1" }

/-- Witness for the amended C9: the loaded `web1` mapping indeed arises from
a truthy dict entry whose vmid converted. -/
theorem c9_load_mappings_amended_witness :
    ("web1", goodMapping) ∈ load_mappings goodVmsTable
    ∧ ∃ d, ("web1", VMEntryVal.dict d) ∈ goodVmsTable ∧ truthyOpt d.node = true
        ∧ truthyOpt d.vmid = true
        ∧ ∃ v, d.vmid = some v ∧ pyIntOfVal v = some goodMapping.vmid
            ∧ goodMapping.host_name = "web1" :=
  ⟨by decide, c9_load_mappings_amended goodVmsTable "web1" goodMapping (by decide)⟩

/-- Fidelity checks of the `strptime` embedding against CPython: the
non-zero-padded forms parse (backtracking across field widths), while
calendar-invalid dates, over-range seconds and unconverted trailing data
raise `ValueError`. -/
theorem parse_snapshot_timestamp_lenient_forms :
    parse_snapshot_timestamp "20260101-000000" = some ⟨2026, 1, 1, 0, 0, 0⟩
    ∧ parse_snapshot_timestamp "202611-121212" = some ⟨2026, 1, 1, 12, 12, 12⟩
    ∧ parse_snapshot_timestamp "20260101-00000" = some ⟨2026, 1, 1, 0, 0, 0⟩
    ∧ parse_snapshot_timestamp "2026123-123456" = some ⟨2026, 12, 3, 12, 34, 56⟩
    ∧ parse_snapshot_timestamp "20261010-2400" = some ⟨2026, 10, 10, 2, 40, 0⟩
    ∧ parse_snapshot_timestamp "20260230-000000" = none
    ∧ parse_snapshot_timestamp "20260101-235960" = none
    ∧ parse_snapshot_timestamp "20261010-9999" = none
    ∧ parse_snapshot_timestamp "20261-121212" = none := by decide

/-- Any name the cleanup loop deletes starts with the stem, has a parsing
timestamp remainder, and that timestamp is strictly older than the cutoff. -/
theorem cleanupLoop_mem {stem : String} {cutoff : Int} {snaps : List String}
    {name : String} (h : name ∈ cleanupLoop stem cutoff snaps) :
    stem.toList.isPrefixOf name.toList = true
    ∧ ∃ t, parse_snapshot_timestamp
          (String.mk (name.toList.drop (stem.length + 1))) = some t
        ∧ t.toSeconds < cutoff := by
  induction snaps with
  | nil => cases h
  | cons s rest ih =>
    simp only [cleanupLoop] at h
    split at h
    · exact ih h
    · rename_i hpre
      split at h
      · exact ih h
      · rename_i t ht
        split at h
        · rename_i hlt
          rcases List.mem_cons.mp h with rfl | hmem
          · exact ⟨by simpa using hpre, t, ht, hlt⟩
          · exact ih hmem
        · exact ih h

/-- C5: snapshot retention cleanup deletes only snapshots whose name begins
with the configured stem and whose embedded `YYYYMMDD-HHMMSS` suffix parses
to a time strictly older than `now` minus the retention window; every other
snapshot (wrong stem, unparsable suffix, or newer than the cutoff) is left
alone. -/
theorem c5_cleanup_deletes_only_old (cfg : UpdateConfig) (now : PyDateTime)
    (snaps : List String) (name : String)
    (h : name ∈ cleanup_old_snapshots cfg now snaps) :
    cfg.snapshotNamePre.toList.isPrefixOf name.toList = true
    ∧ ∃ t, parse_snapshot_timestamp
          (String.mk (name.toList.drop (cfg.snapshotNamePre.length + 1))) = some t
        ∧ t.toSeconds < now.toSeconds - (cfg.snapshot_retention_days : Int) * 86400 :=
  cleanupLoop_mem h

/-- The default `updates` configuration. -/
def defaultCfg : UpdateConfig := {}

/-- A cleanup-time clock for the witnesses. -/
def wNow : PyDateTime := ⟨2026, 10, 12, 0, 0, 0⟩

/-- A canonically named snapshot nine months older than `wNow`. -/
def wOldSnap : String := "pre-update-20260101-000000"

/-- A snapshot whose timestamp suffix is in the non-zero-padded form
`strptime` also accepts: `202611-121212` parses to 2026-01-01 12:12:12. -/
def wLenientSnap : String := "pre-update-202611-121212"

/-- Witness for C5 at the non-padded name: with the default stem and
retention, `wLenientSnap` is deleted at `wNow` (its lenient-form suffix
parses to January 1), and the theorem's conclusions hold for it. -/
theorem c5_cleanup_deletes_only_old_witness :
    wLenientSnap ∈ cleanup_old_snapshots defaultCfg wNow
        [wOldSnap, wLenientSnap, "manual-snap"]
    ∧ (defaultCfg.snapshotNamePre.toList.isPrefixOf wLenientSnap.toList = true
      ∧ ∃ t, parse_snapshot_timestamp
            (String.mk (wLenientSnap.toList.drop (defaultCfg.snapshotNamePre.length + 1)))
            = some t
          ∧ t.toSeconds < wNow.toSeconds
              - (defaultCfg.snapshot_retention_days : Int) * 86400) :=
  ⟨by decide,
    c5_cleanup_deletes_only_old defaultCfg wNow [wOldSnap, wLenientSnap, "manual-snap"]
      wLenientSnap (by decide)⟩

/-! ## Orchestrator facts

`process_host_rollback_facts` is the master case analysis of the host pass;
the rollback-related claims are corollaries of it. -/

set_option maxHeartbeats 1000000 in
/-- Master case analysis of a host pass: the report's `command_output` is
always `None`; once a snapshot was created the only outcomes are SUCCESS,
REVERTED and REVERT_FAILED, every non-success attempts a rollback, and the
rollback attempt's failure is equivalent to REVERT_FAILED; and a REVERTED
result implies a created snapshot, an invoked apply, an attempted rollback
and a successful revert. -/
theorem process_host_rollback_facts (cfg : UpdateConfig) (env : PassEnv) :
    ((process_host_automated_update cfg env).1.update_report.command_output = none)
    ∧ ((process_host_automated_update cfg env).2.snapshot_created = true →
      ((process_host_automated_update cfg env).1.result = .SUCCESS
        ∨ (process_host_automated_update cfg env).1.result = .REVERTED
        ∨ (process_host_automated_update cfg env).1.result = .REVERT_FAILED)
      ∧ ((process_host_automated_update cfg env).1.result ≠ .SUCCESS →
          (process_host_automated_update cfg env).2.revert_attempted = true)
      ∧ ((process_host_automated_update cfg env).1.result ≠ .SUCCESS →
          (env.revert_ok = false ↔
            (process_host_automated_update cfg env).1.result = .REVERT_FAILED)))
    ∧ ((process_host_automated_update cfg env).1.result = .REVERTED →
        (process_host_automated_update cfg env).2.snapshot_created = true
        ∧ (process_host_automated_update cfg env).2.apply_invoked = true
        ∧ (process_host_automated_update cfg env).2.revert_attempted = true
        ∧ env.revert_ok = true) := by
  cases hssh : env.ssh_ok with
  | false => simp_all [process_host_automated_update, handle_reboot_and_verification, revertDecision]
  | true =>
  cases hos : env.os_info with
  | none => simp_all [process_host_automated_update, handle_reboot_and_verification, revertDecision]
  | some osi =>
  cases hpm : env.pm_supported with
  | false => simp_all [process_host_automated_update, handle_reboot_and_verification, revertDecision]
  | true =>
  cases href : (refreshLoop env.adapter.refresh_results).success with
  | false => simp_all [process_host_automated_update, handle_reboot_and_verification, revertDecision]
  | true =>
  cases hopt : cfg.opt_out_hosts.contains env.host || !cfg.apply_updates with
  | true => simp_all [process_host_automated_update, handle_reboot_and_verification, revertDecision]
  | false =>
  cases hupd : env.adapter.check_updates_result.isEmpty with
  | true => simp_all [process_host_automated_update, handle_reboot_and_verification, revertDecision]
  | false =>
  cases hws : env.proxmox_configured && env.vm_mapping.isSome with
  | true =>
    cases hcrt : env.snapshot_create_ok with
    | false => simp_all [process_host_automated_update, handle_reboot_and_verification, revertDecision]
    | true =>
    cases happ : adapter_apply_updates env.adapter with
    | false =>
      cases hrev : env.revert_ok with
      | true => simp_all [process_host_automated_update, handle_reboot_and_verification, revertDecision]
      | false => simp_all [process_host_automated_update, handle_reboot_and_verification, revertDecision]
    | true =>
    cases hreb : cfg.reboot_after_updates with
    | false => simp_all [process_host_automated_update, handle_reboot_and_verification, revertDecision]
    | true =>
    cases hdisp : env.reboot_dispatch_ok with
    | false =>
      cases hrev : env.revert_ok with
      | true => simp_all [process_host_automated_update, handle_reboot_and_verification, revertDecision]
      | false => simp_all [process_host_automated_update, handle_reboot_and_verification, revertDecision]
    | true =>
    cases hav : env.host_available with
    | false =>
      cases hrev : env.revert_ok with
      | true => simp_all [process_host_automated_update, handle_reboot_and_verification, revertDecision]
      | false => simp_all [process_host_automated_update, handle_reboot_and_verification, revertDecision]
    | true => simp_all [process_host_automated_update, handle_reboot_and_verification, revertDecision]
  | false =>
    cases happ : adapter_apply_updates env.adapter with
    | false => rcases hvm : env.vm_mapping with _ | m <;> rcases hpc : env.proxmox_configured <;> simp_all [process_host_automated_update, handle_reboot_and_verification, revertDecision]
    | true =>
    cases hreb : cfg.reboot_after_updates with
    | false => rcases hvm : env.vm_mapping with _ | m <;> rcases hpc : env.proxmox_configured <;> simp_all [process_host_automated_update, handle_reboot_and_verification, revertDecision]
    | true =>
    cases hdisp : env.reboot_dispatch_ok with
    | false => rcases hvm : env.vm_mapping with _ | m <;> rcases hpc : env.proxmox_configured <;> simp_all [process_host_automated_update, handle_reboot_and_verification, revertDecision]
    | true =>
    cases hav : env.host_available with
    | false => rcases hvm : env.vm_mapping with _ | m <;> rcases hpc : env.proxmox_configured <;> simp_all [process_host_automated_update, handle_reboot_and_verification, revertDecision]
    | true => rcases hvm : env.vm_mapping with _ | m <;> rcases hpc : env.proxmox_configured <;> simp_all [process_host_automated_update, handle_reboot_and_verification, revertDecision]

/-! ## Concrete witness inputs -/

/-- A pending update for witness runs. -/
def wUpd : PackageUpdate :=
  { name := "openssl", current_version := "1.0", available_version := "1.1" }

/-- An adapter whose every remote command succeeds. -/
def wAdapterOK : AdapterEnv :=
  { refresh_results := fun _ => true, check_updates_result := [wUpd],
    apply_refresh_ok := true, apply_exit := 0, apply_stdout := "",
    apply_stderr := "" }

/-- An adapter whose apply command exits 100 with captured output. -/
def wAdapterApplyFail : AdapterEnv :=
  { wAdapterOK with
    apply_exit := 100
    apply_stdout := "E: unable to correct problems"
    apply_stderr := "dpkg returned an error code" }

/-- The Proxmox mapping of the witness host. -/
def wVM : VMMapping := { node := .vStr "pve-node1", vmid := 100, host_name := "web1" }

/-- The detected OS of the witness host. -/
def wOS : OSInfo := { distribution := "ubuntu", package_manager := "apt" }

/-- A fully healthy witness pass environment. -/
def wEnvBase : PassEnv :=
  { host := "web1", vm_mapping := some wVM, ssh_ok := true, os_info := some wOS,
    pm_supported := true, adapter := wAdapterOK, snapshot_create_ok := true,
    reboot_dispatch_ok := true, host_available := true, revert_ok := true,
    proxmox_configured := true, now := wNow, snapshots := [],
    start_timestamp := "20261012-000000" }

/-- Updates enabled, reboot enabled. -/
def wCfgRun : UpdateConfig := { apply_updates := true, reboot_after_updates := true }

/-- Snapshot created, apply fails, rollback succeeds. -/
def wEnvRevert : PassEnv := { wEnvBase with adapter := wAdapterApplyFail }

/-- Apply fails on a host without hypervisor integration. -/
def wEnvApplyFailNoVM : PassEnv :=
  { wEnvBase with
    adapter := wAdapterApplyFail
    proxmox_configured := false
    vm_mapping := none }

/-! ## Claims about the orchestrator -/

/-- Counterexample to C2 as stated: a pass whose apply command fails with
nonempty combined output produces a report whose `command_output` is `None`
— the adapters return only a boolean and the orchestrator never attaches the
output. -/
theorem c2_counterexample :
    adapter_apply_updates wEnvApplyFailNoVM.adapter = false
    ∧ wEnvApplyFailNoVM.adapter.apply_stdout
        ++ wEnvApplyFailNoVM.adapter.apply_stderr ≠ ""
    ∧ (process_host_automated_update wCfgRun wEnvApplyFailNoVM).1.result
        = .FAILED_UPDATES
    ∧ (process_host_automated_update wCfgRun wEnvApplyFailNoVM).1.update_report.command_output
        = none :=
  ⟨by decide, by decide, by decide, by decide⟩

/-- C2 (amended): every adapter's apply returns only a boolean success
indicator; the combined stdout and stderr of the apply command are logged
and discarded, and the per-host report's `command_output` field is `None` in
every pass, including apply failures. -/
theorem c2_apply_output_not_attached (cfg : UpdateConfig) (env : PassEnv) :
    (process_host_automated_update cfg env).1.update_report.command_output = none :=
  (process_host_rollback_facts cfg env).1

/-- C3: a REVERTED result implies the pass created its snapshot (snapshot
creation structurally precedes the apply stage), invoked apply, attempted
the rollback and the rollback succeeded. -/
theorem c3_reverted_implies_snapshot_and_rollback (cfg : UpdateConfig)
    (env : PassEnv)
    (h : (process_host_automated_update cfg env).1.result = .REVERTED) :
    (process_host_automated_update cfg env).2.snapshot_created = true
    ∧ (process_host_automated_update cfg env).2.apply_invoked = true
    ∧ (process_host_automated_update cfg env).2.revert_attempted = true
    ∧ env.revert_ok = true :=
  (process_host_rollback_facts cfg env).2.2 h

/-- Witness for C3: the apply-failure pass with a working rollback ends
REVERTED, with snapshot, apply and rollback all recorded. -/
theorem c3_reverted_implies_snapshot_and_rollback_witness :
    (process_host_automated_update wCfgRun wEnvRevert).1.result = .REVERTED
    ∧ ((process_host_automated_update wCfgRun wEnvRevert).2.snapshot_created = true
      ∧ (process_host_automated_update wCfgRun wEnvRevert).2.apply_invoked = true
      ∧ (process_host_automated_update wCfgRun wEnvRevert).2.revert_attempted = true
      ∧ wEnvRevert.revert_ok = true) :=
  ⟨by decide, c3_reverted_implies_snapshot_and_rollback wCfgRun wEnvRevert (by decide)⟩

/-- Updates enabled but `web1` pinned to the opt-out list. -/
def wCfgOptOut : UpdateConfig := { apply_updates := true, opt_out_hosts := ["web1"] }

/-- The opt-out host with a dead SSH connection. -/
def wEnvSshFail : PassEnv := { wEnvBase with ssh_ok := false }

/-- Counterexample to C4 as stated: a host pass whose host is in the opt-out
list but whose SSH connection fails ends FAILED_UPDATES, not OPT_OUT — the
opt-out decision is only taken after connection, OS detection, package
manager lookup and cache refresh all succeed. -/
theorem c4_counterexample :
    wCfgOptOut.opt_out_hosts.contains wEnvSshFail.host = true
    ∧ (process_host_automated_update wCfgOptOut wEnvSshFail).1.result
        = .FAILED_UPDATES
    ∧ (process_host_automated_update wCfgOptOut wEnvSshFail).1.result
        ≠ .OPT_OUT :=
  ⟨by decide, by decide, by decide⟩

/-- C4 (amended): when the pass reaches the update-check decision (SSH
connected, OS detected, package manager supported, cache refresh succeeded
within three attempts) and the host is opted out or update application is
disabled, the result is OPT_OUT, apply is not invoked, no snapshot is
attempted and `snapshot_name` is empty, and the report still carries the
detected updates with the detected OS. -/
theorem c4_opt_out_amended (cfg : UpdateConfig) (env : PassEnv) (osi : OSInfo)
    (hssh : env.ssh_ok = true) (hos : env.os_info = some osi)
    (hpm : env.pm_supported = true)
    (href : (refreshLoop env.adapter.refresh_results).success = true)
    (hopt : cfg.opt_out_hosts.contains env.host = true ∨ cfg.apply_updates = false) :
    (process_host_automated_update cfg env).1.result = .OPT_OUT
    ∧ (process_host_automated_update cfg env).2.apply_invoked = false
    ∧ (process_host_automated_update cfg env).2.snapshot_attempted = false
    ∧ (process_host_automated_update cfg env).1.snapshot_name = none
    ∧ (process_host_automated_update cfg env).1.update_report.updates
        = env.adapter.check_updates_result
    ∧ (process_host_automated_update cfg env).1.update_report.os_info = some osi := by
  have hopt2 : env.host ∈ cfg.opt_out_hosts ∨ cfg.apply_updates = false := by
    rcases hopt with h | h
    · exact Or.inl (by simpa using h)
    · exact Or.inr h
  simp_all [process_host_automated_update]

/-- Witness for the amended C4: the healthy opt-out pass ends OPT_OUT with
the detected update list intact and nothing mutated. -/
theorem c4_opt_out_amended_witness :
    (wEnvBase.ssh_ok = true ∧ wEnvBase.os_info = some wOS
      ∧ wEnvBase.pm_supported = true
      ∧ (refreshLoop wEnvBase.adapter.refresh_results).success = true
      ∧ wCfgOptOut.opt_out_hosts.contains wEnvBase.host = true)
    ∧ ((process_host_automated_update wCfgOptOut wEnvBase).1.result = .OPT_OUT
      ∧ (process_host_automated_update wCfgOptOut wEnvBase).2.apply_invoked = false
      ∧ (process_host_automated_update wCfgOptOut wEnvBase).2.snapshot_attempted = false
      ∧ (process_host_automated_update wCfgOptOut wEnvBase).1.snapshot_name = none
      ∧ (process_host_automated_update wCfgOptOut wEnvBase).1.update_report.updates
          = wEnvBase.adapter.check_updates_result
      ∧ (process_host_automated_update wCfgOptOut wEnvBase).1.update_report.os_info
          = some wOS) :=
  ⟨⟨by decide, by decide, by decide, by decide, by decide⟩,
    c4_opt_out_amended wCfgOptOut wEnvBase wOS (by decide) (by decide) (by decide)
      (by decide) (Or.inl (by decide))⟩

/-- Behaviour of the unrolled refresh loop: between one and three attempts,
all attempts before the stopping one failed, a successful loop stopped on a
successful attempt, the sleeps are 5 seconds between consecutive attempts,
and three failures exhaust the loop. -/
theorem refreshLoop_spec (ok : Nat → Bool) :
    (1 ≤ (refreshLoop ok).attempts ∧ (refreshLoop ok).attempts ≤ 3)
    ∧ (∀ k, 1 ≤ k → k < (refreshLoop ok).attempts → ok k = false)
    ∧ ((refreshLoop ok).success = true → ok (refreshLoop ok).attempts = true)
    ∧ (refreshLoop ok).sleeps = List.replicate ((refreshLoop ok).attempts - 1) 5
    ∧ (ok 1 = false → ok 2 = false → ok 3 = false →
        (refreshLoop ok).success = false ∧ (refreshLoop ok).attempts = 3) := by
  rcases h1 : ok 1 <;> rcases h2 : ok 2 <;> rcases h3 : ok 3 <;>
    refine ⟨by simp [refreshLoop, h1, h2, h3], fun k hk1 hk2 => ?_,
      by simp [refreshLoop, h1, h2, h3], by simp [refreshLoop, h1, h2, h3],
      by simp [refreshLoop, h1, h2, h3]⟩ <;>
    (simp only [refreshLoop, h1, h2, h3] at hk2) <;>
    rcases k with _ | _ | _ | n <;> simp_all <;> omega

set_option maxHeartbeats 1000000 in
/-- In every pass that reaches the refresh stage, the trace's attempt count
is the loop's and the trace's sleeps begin with the loop's sleeps. -/
theorem process_host_refresh_trace (cfg : UpdateConfig) (env : PassEnv)
    (osi : OSInfo) (hssh : env.ssh_ok = true) (hos : env.os_info = some osi)
    (hpm : env.pm_supported = true) :
    (process_host_automated_update cfg env).2.refresh_attempts
      = (refreshLoop env.adapter.refresh_results).attempts
    ∧ (process_host_automated_update cfg env).2.sleeps.take
        (refreshLoop env.adapter.refresh_results).sleeps.length
      = (refreshLoop env.adapter.refresh_results).sleeps := by
  cases href : (refreshLoop env.adapter.refresh_results).success with
  | false => simp_all [process_host_automated_update]
  | true =>
  cases hopt : cfg.opt_out_hosts.contains env.host || !cfg.apply_updates with
  | true => simp_all [process_host_automated_update]
  | false =>
  cases hupd : env.adapter.check_updates_result.isEmpty with
  | true => simp_all [process_host_automated_update]
  | false =>
  cases hws : env.proxmox_configured && env.vm_mapping.isSome with
  | true =>
    cases hcrt : env.snapshot_create_ok with
    | false => simp_all [process_host_automated_update]
    | true =>
    cases happ : adapter_apply_updates env.adapter with
    | false => simp_all [process_host_automated_update, revertDecision]
    | true =>
    cases hreb : cfg.reboot_after_updates with
    | false => simp_all [process_host_automated_update]
    | true =>
    cases hdisp : env.reboot_dispatch_ok with
    | false =>
      simp_all [process_host_automated_update, handle_reboot_and_verification,
        revertDecision]
    | true =>
    cases hav : env.host_available with
    | false =>
      simp_all [process_host_automated_update, handle_reboot_and_verification,
        revertDecision, List.take_left]
    | true =>
      simp_all [process_host_automated_update, handle_reboot_and_verification,
        List.take_left]
  | false =>
    cases happ : adapter_apply_updates env.adapter with
    | false =>
      rcases hvm : env.vm_mapping with _ | m <;> rcases hpc : env.proxmox_configured <;>
        simp_all [process_host_automated_update, revertDecision]
    | true =>
    cases hreb : cfg.reboot_after_updates with
    | false =>
      rcases hvm : env.vm_mapping with _ | m <;> rcases hpc : env.proxmox_configured <;>
        simp_all [process_host_automated_update]
    | true =>
    cases hdisp : env.reboot_dispatch_ok with
    | false =>
      rcases hvm : env.vm_mapping with _ | m <;> rcases hpc : env.proxmox_configured <;>
        simp_all [process_host_automated_update, handle_reboot_and_verification,
          revertDecision]
    | true =>
    cases hav : env.host_available with
    | false =>
      rcases hvm : env.vm_mapping with _ | m <;> rcases hpc : env.proxmox_configured <;>
        simp_all [process_host_automated_update, handle_reboot_and_verification,
          revertDecision, List.take_left]
    | true =>
      rcases hvm : env.vm_mapping with _ | m <;> rcases hpc : env.proxmox_configured <;>
        simp_all [process_host_automated_update, handle_reboot_and_verification,
          List.take_left]

/-- C6: a pass that reaches the refresh stage invokes the adapter's refresh
between one and three times, stops at the first success, sleeps 5 seconds
between consecutive attempts, and if all three attempts fail it ends
FAILED_UPDATES without listing updates and without invoking apply. -/
theorem c6_refresh_retry (cfg : UpdateConfig) (env : PassEnv) (osi : OSInfo)
    (hssh : env.ssh_ok = true) (hos : env.os_info = some osi)
    (hpm : env.pm_supported = true) :
    (1 ≤ (process_host_automated_update cfg env).2.refresh_attempts
      ∧ (process_host_automated_update cfg env).2.refresh_attempts ≤ 3)
    ∧ (∀ k, 1 ≤ k → k < (process_host_automated_update cfg env).2.refresh_attempts →
        env.adapter.refresh_results k = false)
    ∧ ((refreshLoop env.adapter.refresh_results).success = true →
        env.adapter.refresh_results
          (process_host_automated_update cfg env).2.refresh_attempts = true)
    ∧ (process_host_automated_update cfg env).2.sleeps.take
          ((process_host_automated_update cfg env).2.refresh_attempts - 1)
        = List.replicate
            ((process_host_automated_update cfg env).2.refresh_attempts - 1) 5
    ∧ (env.adapter.refresh_results 1 = false → env.adapter.refresh_results 2 = false →
        env.adapter.refresh_results 3 = false →
        (process_host_automated_update cfg env).1.result = .FAILED_UPDATES
        ∧ (process_host_automated_update cfg env).1.update_report.updates = []
        ∧ (process_host_automated_update cfg env).2.apply_invoked = false) := by
  obtain ⟨hA, hT⟩ := process_host_refresh_trace cfg env osi hssh hos hpm
  obtain ⟨hb, hk, hsucc, hsl, hfail⟩ := refreshLoop_spec env.adapter.refresh_results
  have hlen : (refreshLoop env.adapter.refresh_results).sleeps.length
      = (refreshLoop env.adapter.refresh_results).attempts - 1 := by
    rw [hsl]; simp
  refine ⟨by rw [hA]; exact hb, fun k k1 k2 => hk k k1 (by rwa [hA] at k2),
    fun hs => by rw [hA]; exact hsucc hs, ?_, fun f1 f2 f3 => ?_⟩
  · rw [hA, ← hlen, hT, hsl]
    simp
  · have hsf : (refreshLoop env.adapter.refresh_results).success = false :=
      (hfail f1 f2 f3).1
    refine ⟨?_, ?_, ?_⟩ <;>
      simp [process_host_automated_update, hssh, hos, hpm, hsf]

/-- A pass environment whose cache refresh never succeeds. -/
def wEnvRefreshDead : PassEnv :=
  { wEnvBase with adapter := { wAdapterOK with refresh_results := fun _ => false } }

/-- Witness for C6: with every refresh failing, the pass makes exactly three
attempts, sleeps 5 s twice, and ends FAILED_UPDATES with no updates listed
and apply never invoked. -/
theorem c6_refresh_retry_witness :
    (wEnvRefreshDead.ssh_ok = true ∧ wEnvRefreshDead.os_info = some wOS
      ∧ wEnvRefreshDead.pm_supported = true
      ∧ wEnvRefreshDead.adapter.refresh_results 1 = false)
    ∧ ((1 ≤ (process_host_automated_update wCfgRun wEnvRefreshDead).2.refresh_attempts
        ∧ (process_host_automated_update wCfgRun wEnvRefreshDead).2.refresh_attempts ≤ 3)
      ∧ ((process_host_automated_update wCfgRun wEnvRefreshDead).1.result
            = .FAILED_UPDATES
        ∧ (process_host_automated_update wCfgRun wEnvRefreshDead).1.update_report.updates
            = []
        ∧ (process_host_automated_update wCfgRun wEnvRefreshDead).2.apply_invoked
            = false)) :=
  ⟨⟨by decide, by decide, by decide, by decide⟩,
    (c6_refresh_retry wCfgRun wEnvRefreshDead wOS (by decide) (by decide) (by decide)).1,
    (c6_refresh_retry wCfgRun wEnvRefreshDead wOS (by decide) (by decide)
      (by decide)).2.2.2.2 (by decide) (by decide) (by decide)⟩

set_option maxHeartbeats 2000000 in
/-- C10: when a pass that applied updates fails at the reboot-dispatch or
availability-verification stage, the returned report's `update_report` has
`os_info = None` and an empty updates list — the detected-and-applied
updates are not carried into the failure report — and the result is one of
FAILED_REBOOT, FAILED_AVAILABILITY, REVERTED, REVERT_FAILED. -/
theorem c10_reboot_stage_reports_lose_update_info (cfg : UpdateConfig)
    (env : PassEnv) (osi : OSInfo)
    (hssh : env.ssh_ok = true) (hos : env.os_info = some osi)
    (hpm : env.pm_supported = true)
    (href : (refreshLoop env.adapter.refresh_results).success = true)
    (hopt : (cfg.opt_out_hosts.contains env.host || !cfg.apply_updates) = false)
    (hupd : env.adapter.check_updates_result.isEmpty = false)
    (hsnap : (env.proxmox_configured && env.vm_mapping.isSome) = false
        ∨ env.snapshot_create_ok = true)
    (happ : adapter_apply_updates env.adapter = true)
    (hreb : cfg.reboot_after_updates = true)
    (hfail : env.reboot_dispatch_ok = false ∨ env.host_available = false) :
    (process_host_automated_update cfg env).1.update_report.os_info = none
    ∧ (process_host_automated_update cfg env).1.update_report.updates = []
    ∧ ((process_host_automated_update cfg env).1.result = .FAILED_REBOOT
        ∨ (process_host_automated_update cfg env).1.result = .FAILED_AVAILABILITY
        ∨ (process_host_automated_update cfg env).1.result = .REVERTED
        ∨ (process_host_automated_update cfg env).1.result = .REVERT_FAILED)
    ∧ (process_host_automated_update cfg env).2.apply_invoked = true := by
  rcases hvm : env.vm_mapping with _ | m <;>
  rcases hpc : env.proxmox_configured <;>
  rcases hcrt : env.snapshot_create_ok <;>
  rcases hrev : env.revert_ok <;>
  rcases hdisp : env.reboot_dispatch_ok <;>
  rcases hav : env.host_available <;>
    simp_all [process_host_automated_update, handle_reboot_and_verification,
      revertDecision]

/-- An otherwise healthy pass whose host does not return after reboot. -/
def wEnvNoReturn : PassEnv := { wEnvBase with host_available := false }

/-- Witness for C10: the pass that applied updates, rebooted and lost the
host reports REVERTED with `os_info = None` and no updates listed, although
the apply stage ran. -/
theorem c10_reboot_stage_reports_lose_update_info_witness :
    (wEnvNoReturn.host_available = false
      ∧ adapter_apply_updates wEnvNoReturn.adapter = true
      ∧ wEnvNoReturn.adapter.check_updates_result.isEmpty = false)
    ∧ ((process_host_automated_update wCfgRun wEnvNoReturn).1.update_report.os_info
          = none
      ∧ (process_host_automated_update wCfgRun wEnvNoReturn).1.update_report.updates
          = []
      ∧ ((process_host_automated_update wCfgRun wEnvNoReturn).1.result = .FAILED_REBOOT
          ∨ (process_host_automated_update wCfgRun wEnvNoReturn).1.result
              = .FAILED_AVAILABILITY
          ∨ (process_host_automated_update wCfgRun wEnvNoReturn).1.result = .REVERTED
          ∨ (process_host_automated_update wCfgRun wEnvNoReturn).1.result
              = .REVERT_FAILED)
      ∧ (process_host_automated_update wCfgRun wEnvNoReturn).2.apply_invoked = true) :=
  ⟨⟨by decide, by decide, by decide⟩,
    c10_reboot_stage_reports_lose_update_info wCfgRun wEnvNoReturn wOS
      (by decide) (by decide) (by decide) (by decide) (by decide) (by decide)
      (Or.inr (by decide)) (by decide) (by decide) (Or.inr (by decide))⟩
